import Mathlib

/-!
# kb_create: the graph API server (`src/api/server.js`)

A shallow embedding of the two HTTP handlers of the server, `GET /api/graph`
and `GET /api/node/:id`, together with the six SQL statements they send.

* The database is a record of tables, each a list of rows.  Columns other than
  the keys are nullable (`Option`).  Integer columns hold integers, the other
  numeric columns rationals, and the handler sees them as numbers; a count is
  the number it denotes.
* Each SQL statement is a function of the database.  Where SQL leaves the row
  order open (ties of an `ORDER BY`, a `UNION`) the functions keep the table
  order, and the `UNION` is handed to an explicit arrangement `arrange`.  A
  `UNION` is answered only when its operands agree in the number and the types
  of their columns, as PostgreSQL requires; otherwise the statement rejects.
* `pool.connect()` and `client.query()` may reject; `Engine` says which of them
  do, and with what message.
* A handler maps the server state (connections checked out of the pool, and the
  responses sent so far) to the state after the request.  The path parameter
  `:id` is the key it denotes; one that denotes no key makes the query reject.
-/

namespace KbCreate

/-! ## Tables -/

/-- A scalar of a result row, as `SELECT *` hands it to the handler. -/
inductive Value where
  | null
  | int (n : Int)
  | num (q : ℚ)
  | text (s : String)
  | bool (b : Bool)
deriving DecidableEq

/-- The type of a column. -/
inductive ColType where
  | integer
  | numeric
  | text
  | boolean
deriving DecidableEq

/-- Row of `research_field(id, field_name, display_order, node_size, color, is_selected)`. -/
structure ResearchField where
  id : Int
  field_name : Option String
  display_order : Option Int
  node_size : Option ℚ
  color : Option String
  is_selected : Option Bool
deriving DecidableEq

/-- Row of `keyword(id, keyword_name, frequency, weight, color, field_id)`. -/
structure Keyword where
  id : Int
  keyword_name : Option String
  frequency : Option Int
  weight : Option ℚ
  color : Option String
  field_id : Option Int
deriving DecidableEq

/-- Row of `paper_keyword(paper_id, keyword_id)`. -/
structure PaperKeyword where
  paper_id : Option Int
  keyword_id : Option Int
deriving DecidableEq

/-- Row of `paper(id, ..., venue_id)`; `cols` are the columns between the two. -/
structure Paper where
  id : Int
  cols : List Value
  venue_id : Option Int
deriving DecidableEq

/-- Row of `venue(id, venue_name, impact_factor)`. -/
structure Venue where
  id : Int
  venue_name : Option String
  impact_factor : Option ℚ
deriving DecidableEq

/-- A database state: the rows of the tables, and `paper_columns`, the types of
the columns of `paper` between `id` and `venue_id`. -/
structure Db where
  research_field : List ResearchField
  keyword : List Keyword
  paper_keyword : List PaperKeyword
  paper : List Paper
  venue : List Venue
  paper_columns : List ColType

/-! ## SQL ordering -/

/-- `x` sorts strictly before `y` under `ORDER BY .. ASC` (nulls last). -/
def ascLt {α : Type} (lt : α → α → Bool) : Option α → Option α → Bool
  | some a, some b => lt a b
  | some _, none => true
  | none, _ => false

/-- `x` sorts strictly before `y` under `ORDER BY .. DESC` (nulls first). -/
def descLt {α : Type} (lt : α → α → Bool) : Option α → Option α → Bool
  | some a, some b => lt b a
  | none, some _ => true
  | _, none => false

/-- The order of an integer column. -/
def intLt (x y : Int) : Bool := decide (x < y)

/-- The order of a text column: code point by code point. -/
def textLt (x y : String) : Bool := decide (x < y)

/-- `ORDER BY display_order, field_name`: `a` may stand before `b`. -/
def fieldBefore (a b : ResearchField) : Bool :=
  if a.display_order = b.display_order then !(ascLt textLt b.field_name a.field_name)
  else ascLt intLt a.display_order b.display_order

/-- `ORDER BY k.frequency DESC, k.keyword_name`: `a` may stand before `b`. -/
def keywordBefore (a b : Keyword) : Bool :=
  if a.frequency = b.frequency then !(ascLt textLt b.keyword_name a.keyword_name)
  else descLt intLt a.frequency b.frequency

/-! ## The rows the graph handler works on -/

/-- A row of `keywordsQuery`, as the object the handler holds: the selected
columns, and `papers`, which the handler sets (`none`: not set). -/
structure KeywordObj where
  id : Int
  name : Option String
  count : Option Int
  weight : Option ℚ
  color : Option String
  papers : Option (List Int)
deriving DecidableEq

/-- A row of `fieldsQuery`, as the object the handler holds: the selected
columns, and `keywords`, which the handler sets. -/
structure FieldObj where
  id : Int
  name : Option String
  display_order : Option Int
  node_size : Option ℚ
  color : Option String
  keywords : List KeywordObj
deriving DecidableEq

/-- The select list of `fieldsQuery`. -/
def fieldColumns (f : ResearchField) : FieldObj :=
  { id := f.id, name := f.field_name, display_order := f.display_order,
    node_size := f.node_size, color := f.color, keywords := [] }

/-- The select list of `keywordsQuery`. -/
def keywordColumns (k : Keyword) : KeywordObj :=
  { id := k.id, name := k.keyword_name, count := k.frequency, weight := k.weight,
    color := k.color, papers := none }

/-- The rows of `research_field` with `is_selected = true`. -/
def selectedFields (db : Db) : List ResearchField :=
  db.research_field.filter (fun f => f.is_selected = some true)

/-- The rows of `keyword` with `field_id = $1`. -/
def keywordsOf (db : Db) (fieldId : Int) : List Keyword :=
  db.keyword.filter (fun k => k.field_id = some fieldId)

/-- The statement `fieldsQuery`. -/
def fieldsQuery (db : Db) : List FieldObj :=
  ((selectedFields db).insertionSort (fun a b => fieldBefore a b = true)).map fieldColumns

/-- The statement `keywordsQuery` with parameter `$1 = fieldId`. -/
def keywordsQuery (db : Db) (fieldId : Int) : List KeywordObj :=
  (((keywordsOf db fieldId).insertionSort (fun a b => keywordBefore a b = true)).take 10).map
    keywordColumns

/-! ## Responses and server state -/

/-- A keyword entry of the graph response. -/
structure KeywordEntry where
  id : Int
  name : Option String
  count : Nat
  frequency : Int
  weight : ℚ
  color : Option String
  papers : List Int
deriving DecidableEq

/-- A field entry of the graph response. -/
structure FieldEntry where
  id : Int
  name : Option String
  count : Nat
  color : Option String
  keywords : List KeywordEntry
deriving DecidableEq

/-- A result row of one of the four node statements. -/
inductive NodeRow where
  | field (row : ResearchField) (keyword_count : Nat)
  | keyword (row : Keyword) (paper_count : Nat)
  | paper (row : Paper) (venue_name : Option String) (impact_factor : Option ℚ)
  | any (columns : List Value)
deriving DecidableEq

/-- A JSON body. -/
inductive Body where
  | graph (fields : List FieldEntry)
  | node (row : NodeRow)
  | error (error : String) (details : Option String)
deriving DecidableEq

/-- A response: status and body. -/
structure Response where
  status : Nat
  body : Body
deriving DecidableEq

/-- What the database does beyond holding the tables.  Which calls reject, and
with which message: `connect` for `pool.connect()`, `query n` for the `n`-th
`client.query()` of the request, counted from 0.  And `arrange`, the order in
which it returns the rows of a `UNION`. -/
structure Engine where
  connect : Option String
  query : Nat → Option String
  arrange : List (List Value) → List (List Value)

/-- The pool and the wire: connections checked out, responses sent. -/
structure Server where
  checkedOut : Nat
  sent : List Response
deriving DecidableEq

/-- Effect of `pool.connect()` resolving. -/
def Server.acquire (s : Server) : Server :=
  { s with checkedOut := s.checkedOut + 1 }

/-- Effect of `client.release()`. -/
def Server.release (s : Server) : Server :=
  { s with checkedOut := s.checkedOut - 1 }

/-- Effect of `res.status(status).json(body)`. -/
def Server.send (s : Server) (status : Nat) (body : Body) : Server :=
  { s with sent := s.sent ++ [⟨status, body⟩] }

/-! ## `GET /api/graph` -/

/-- The value of `x || d` for a nullable number `x`: `d` when `x` is null or 0. -/
def orDefault {α : Type} [DecidableEq α] [Zero α] (x : Option α) (d : α) : α :=
  match x with
  | some v => if v = 0 then d else v
  | none => d

/-- The first loop of the handler: one `keywordsQuery` per field, the `n`-th
query of the request for the field at the head. -/
def keywordsLoop (db : Db) (eng : Engine) : Nat → List FieldObj → Except String (List FieldObj)
  | _, [] => .ok []
  | n, f :: fs =>
    match eng.query n with
    | some msg => .error msg
    | none =>
      match keywordsLoop db eng (n + 1) fs with
      | .error msg => .error msg
      | .ok rest => .ok ({ f with keywords := keywordsQuery db f.id } :: rest)

/-- The second loop of the handler: `keyword.papers = []` for every keyword. -/
def resetPapers (fields : List FieldObj) : List FieldObj :=
  fields.map fun f =>
    { f with keywords := f.keywords.map fun kw => { kw with papers := some [] } }

/-- The inner `map` of the response assembly. -/
def keywordEntry (kw : KeywordObj) : KeywordEntry :=
  { id := kw.id, name := kw.name, count := 0, frequency := orDefault kw.count 0,
    weight := orDefault kw.weight (1 / 2), color := kw.color, papers := [] }

/-- The outer `map` of the response assembly. -/
def fieldEntry (f : FieldObj) : FieldEntry :=
  { id := f.id, name := f.name, count := f.keywords.length, color := f.color,
    keywords := f.keywords.map keywordEntry }

/-- The `try` block of the graph handler: the state it leaves, and the error
it threw, if any. -/
def graphTry (db : Db) (eng : Engine) (s : Server) : Server × Except String Unit :=
  match eng.connect with
  | some msg => (s, .error msg)
  | none =>
    let s := s.acquire
    match eng.query 0 with
    | some msg => (s, .error msg)
    | none =>
      match keywordsLoop db eng 1 (fieldsQuery db) with
      | .error msg => (s, .error msg)
      | .ok fields =>
        let fields := resetPapers fields
        let s := s.release
        (s.send 200 (.graph (fields.map fieldEntry)), .ok ())

/-- The handler of `GET /api/graph`: `try` block and `catch` clause. -/
def graphHandler (db : Db) (eng : Engine) (s : Server) : Server :=
  match graphTry db eng s with
  | (s, .ok _) => s
  | (s, .error msg) => s.send 500 (.error "数据库查询失败" (some msg))

/-! ## `GET /api/node/:id` -/

/-- `xs LEFT JOIN ys ON cond`: every row of `xs` with each of its partners, or
with `none` when it has no partner. -/
def leftJoin {α β : Type} (xs : List α) (ys : List β) (cond : α → β → Bool) :
    List (α × Option β) :=
  xs.flatMap fun x =>
    if (ys.filter (cond x)).isEmpty then [(x, none)]
    else (ys.filter (cond x)).map fun y => (x, some y)

/-- `SELECT x.*, COUNT(c) .. GROUP BY key`: one row per value of `key` among
`rows`, with the columns of `x` and the number of rows of the group where the
counted column `c` is not null. -/
def groupCount {α β γ : Type} (key : α → Int) (counted : Option β → Option γ)
    (rows : List (α × Option β)) : List (α × Nat) :=
  (rows.map fun r => key r.1).dedup.filterMap fun g =>
    (rows.find? fun r => key r.1 = g).map fun r =>
      (r.1, rows.countP fun r => key r.1 = g && (counted r.2).isSome)

/-- The statement of `case 'field'`. -/
def fieldNodeQuery (db : Db) (id : Int) : List NodeRow :=
  (groupCount ResearchField.id (fun k : Option Keyword => k.map Keyword.id)
    ((leftJoin db.research_field db.keyword fun rf k => k.field_id = some rf.id).filter
      fun r => r.1.id = id)).map fun r => NodeRow.field r.1 r.2

/-- The statement of `case 'keyword'`. -/
def keywordNodeQuery (db : Db) (id : Int) : List NodeRow :=
  (groupCount Keyword.id (fun pk : Option PaperKeyword => pk.bind PaperKeyword.paper_id)
    ((leftJoin db.keyword db.paper_keyword fun k pk => pk.keyword_id = some k.id).filter
      fun r => r.1.id = id)).map fun r => NodeRow.keyword r.1 r.2

/-- The statement of `case 'paper'`. -/
def paperNodeQuery (db : Db) (id : Int) : List NodeRow :=
  ((leftJoin db.paper db.venue fun p v => p.venue_id = some v.id).filter
    fun r => r.1.id = id).map fun r =>
      NodeRow.paper r.1 (r.2.bind Venue.venue_name) (r.2.bind Venue.impact_factor)

/-- A nullable column as a scalar. -/
def column {α : Type} (f : α → Value) : Option α → Value
  | some a => f a
  | none => Value.null

/-- The columns `SELECT *` gives for a row of `research_field`. -/
def ResearchField.columns (f : ResearchField) : List Value :=
  [.int f.id, column .text f.field_name, column .int f.display_order, column .num f.node_size,
    column .text f.color, column .bool f.is_selected]

/-- The columns `SELECT *` gives for a row of `keyword`. -/
def Keyword.columns (k : Keyword) : List Value :=
  [.int k.id, column .text k.keyword_name, column .int k.frequency, column .num k.weight,
    column .text k.color, column .int k.field_id]

/-- The columns `SELECT *` gives for a row of `paper`. -/
def Paper.columns (p : Paper) : List Value :=
  .int p.id :: (p.cols ++ [column .int p.venue_id])

/-- The column types of `SELECT * FROM research_field`. -/
def ResearchField.columnTypes : List ColType :=
  [.integer, .text, .integer, .numeric, .text, .boolean]

/-- The column types of `SELECT * FROM keyword`. -/
def Keyword.columnTypes : List ColType :=
  [.integer, .text, .integer, .numeric, .text, .integer]

/-- The column types of `SELECT * FROM paper`. -/
def Paper.columnTypes (db : Db) : List ColType :=
  .integer :: (db.paper_columns ++ [.integer])

/-- The name PostgreSQL prints for a column type. -/
def ColType.name : ColType → String
  | .integer => "integer"
  | .numeric => "numeric"
  | .text => "text"
  | .boolean => "boolean"

/-- The result of a `SELECT`: the types of its columns, and its rows. -/
structure Relation where
  types : List ColType
  rows : List (List Value)

/-- The common type of two columns of a `UNION`: the same type, or two number
types; `none` when the two cannot be matched. -/
def unionType (a b : ColType) : Option ColType :=
  if a = b then some a
  else
    match a, b with
    | .integer, .numeric => some .numeric
    | .numeric, .integer => some .numeric
    | _, _ => none

/-- The column types of a `UNION` of operands with as many columns each, or the
error of the first pair of columns that cannot be matched. -/
def unionTypes : List ColType → List ColType → Except String (List ColType)
  | a :: as, b :: bs =>
    match unionType a b with
    | none => .error ("UNION types " ++ a.name ++ " and " ++ b.name ++ " cannot be matched")
    | some t =>
      match unionTypes as bs with
      | .error msg => .error msg
      | .ok ts => .ok (t :: ts)
  | _, _ => .ok []

/-- The statement `a UNION b`: rejected when the operands differ in the number of
their columns or in the type of one; else the rows of both, duplicates removed,
in the order `arrange` gives them. -/
def sqlUnion (arrange : List (List Value) → List (List Value)) (a b : Relation) :
    Except String Relation :=
  if a.types.length ≠ b.types.length then
    .error "each UNION query must have the same number of columns"
  else
    match unionTypes a.types b.types with
    | .error msg => .error msg
    | .ok ts => .ok ⟨ts, arrange (a.rows ++ b.rows).dedup⟩

/-- The statement of the `default` case: the by-id selection of `research_field`
`UNION` that of `keyword`, and the result `UNION` that of `paper`. -/
def anyNodeQuery (db : Db) (eng : Engine) (id : Int) : Except String (List NodeRow) :=
  match sqlUnion eng.arrange
      ⟨ResearchField.columnTypes,
        (db.research_field.filter fun f => f.id = id).map ResearchField.columns⟩
      ⟨Keyword.columnTypes, (db.keyword.filter fun k => k.id = id).map Keyword.columns⟩ with
  | .error msg => .error msg
  | .ok fieldsAndKeywords =>
    match sqlUnion eng.arrange fieldsAndKeywords
        ⟨Paper.columnTypes db, (db.paper.filter fun p => p.id = id).map Paper.columns⟩ with
    | .error msg => .error msg
    | .ok all => .ok (all.rows.map NodeRow.any)

/-- The `switch (type)` of the node handler: the answer to the statement sent,
its rows or the error it is rejected with. -/
def nodeQuery (db : Db) (eng : Engine) (id : Int) (type : Option String) :
    Except String (List NodeRow) :=
  if type = some "field" then .ok (fieldNodeQuery db id)
  else if type = some "keyword" then .ok (keywordNodeQuery db id)
  else if type = some "paper" then .ok (paperNodeQuery db id)
  else anyNodeQuery db eng id

/-- The `try` block of the node handler: the state it leaves, and the error
it threw, if any.  `id` is the key the path parameter denotes. -/
def nodeTry (db : Db) (eng : Engine) (id : Int) (type : Option String) (s : Server) :
    Server × Except String Unit :=
  match eng.connect with
  | some msg => (s, .error msg)
  | none =>
    let s := s.acquire
    match eng.query 0 with
    | some msg => (s, .error msg)
    | none =>
      match nodeQuery db eng id type with
      | .error msg => (s, .error msg)
      | .ok rows =>
        let s := s.release
        match rows with
        | [] => (s.send 404 (.error "节点未找到" none), .ok ())
        | row :: _ => (s.send 200 (.node row), .ok ())

/-- The handler of `GET /api/node/:id`: `try` block and `catch` clause. -/
def nodeHandler (db : Db) (eng : Engine) (id : Int) (type : Option String) (s : Server) :
    Server :=
  match nodeTry db eng id type s with
  | (s, .ok _) => s
  | (s, .error msg) => s.send 500 (.error "节点查询失败" (some msg))

/-! ## Sample states -/

/-- An engine on which nothing rejects; a `UNION` comes back as computed. -/
def quietEngine : Engine := ⟨none, fun _ => none, id⟩

/-- Two selected fields and one that is not; field 1 has three keywords. -/
def demoDb : Db :=
  ⟨[⟨2, some "Vision", some 2, none, some "#00f", some true⟩,
    ⟨1, some "Audio", some 1, none, some "#f00", some true⟩,
    ⟨3, some "Robots", some 0, none, none, some false⟩],
   [⟨10, some "speech", some 4, some 2, none, some 1⟩,
    ⟨11, some "music", some 9, some 0, none, some 1⟩,
    ⟨12, some "codec", some 4, none, none, some 1⟩,
    ⟨2, some "pixels", some 0, some 1, none, some 2⟩],
   [⟨some 7, some 10⟩, ⟨some 8, some 10⟩], [⟨2, [.text "A paper"], none⟩], [], [.text]⟩

/-- The document the graph handler answers with on `demoDb`. -/
def demoFields : List FieldEntry :=
  [⟨1, some "Audio", 3, some "#f00",
     [⟨11, some "music", 0, 9, 1 / 2, none, []⟩, ⟨12, some "codec", 0, 4, 1 / 2, none, []⟩,
      ⟨10, some "speech", 0, 4, 2, none, []⟩]⟩,
   ⟨2, some "Vision", 1, some "#00f", [⟨2, some "pixels", 0, 0, 1, none, []⟩]⟩]

/-- One selected field; one of its two keywords has no frequency. -/
def nullFrequencyDb : Db :=
  ⟨[⟨1, some "Audio", some 1, none, none, some true⟩],
   [⟨10, some "speech", none, none, none, some 1⟩, ⟨11, some "music", some 5, none, none, some 1⟩],
   [], [], [], []⟩

/-- An engine whose `n`-th query of a request rejects. -/
def rejectingEngine (n : Nat) : Engine :=
  ⟨none, fun k => if k = n then some "connection terminated" else none, id⟩

/-- An engine on which `pool.connect()` rejects. -/
def unreachableEngine : Engine := ⟨some "connect ECONNREFUSED", fun _ => none, id⟩

/-! ## The two sort orders are total preorders -/

theorem intLt_iff (x y : Int) : intLt x y = true ↔ x < y := by simp [intLt]

theorem textLt_iff (x y : String) : textLt x y = true ↔ x < y := by simp [textLt]

section Order
variable {α : Type} [LinearOrder α] {lt : α → α → Bool} (hlt : ∀ x y, lt x y = true ↔ x < y)
include hlt

theorem lt_false_iff (x y : α) : lt x y = false ↔ y ≤ x := by
  rw [← not_lt, ← hlt, Bool.not_eq_true]

theorem ascLt_asymm (x y : Option α) (h : ascLt lt x y = true) : ascLt lt y x = false := by
  rcases x with _ | a <;> rcases y with _ | b <;> simp_all [ascLt]
  exact (lt_false_iff hlt b a).2 (le_of_lt h)

theorem ascLt_trans (x y z : Option α) (h1 : ascLt lt x y = true) (h2 : ascLt lt y z = true) :
    ascLt lt x z = true := by
  rcases x with _ | a <;> rcases y with _ | b <;> rcases z with _ | c <;> simp_all [ascLt]
  exact lt_trans h1 h2

theorem ascLt_connex (x y : Option α) (h : x ≠ y) :
    ascLt lt x y = true ∨ ascLt lt y x = true := by
  rcases x with _ | a <;> rcases y with _ | b <;> simp_all [ascLt]

theorem ascLt_false_trans (x y z : Option α) (h1 : ascLt lt y x = false)
    (h2 : ascLt lt z y = false) : ascLt lt z x = false := by
  rcases x with _ | a <;> rcases y with _ | b <;> rcases z with _ | c <;>
    simp_all [ascLt, lt_false_iff hlt]
  exact le_trans h1 h2

theorem descLt_asymm (x y : Option α) (h : descLt lt x y = true) : descLt lt y x = false := by
  rcases x with _ | a <;> rcases y with _ | b <;> simp_all [descLt]
  exact (lt_false_iff hlt a b).2 (le_of_lt h)

theorem descLt_trans (x y z : Option α) (h1 : descLt lt x y = true)
    (h2 : descLt lt y z = true) : descLt lt x z = true := by
  rcases x with _ | a <;> rcases y with _ | b <;> rcases z with _ | c <;> simp_all [descLt]
  exact lt_trans h2 h1

theorem descLt_connex (x y : Option α) (h : x ≠ y) :
    descLt lt x y = true ∨ descLt lt y x = true := by
  rcases x with _ | a <;> rcases y with _ | b <;> simp_all [descLt]
  exact fun e => h e.symm

end Order

/-- A strict first key and a second key, combined as `ORDER BY k, n` does, give
a total relation. -/
theorem lex_total {κ ν : Type} [DecidableEq κ] (lt1 : κ → κ → Bool) (lt2 : ν → ν → Bool)
    (connex : ∀ x y, x ≠ y → lt1 x y = true ∨ lt1 y x = true)
    (asymm2 : ∀ x y, lt2 x y = true → lt2 y x = false)
    (k1 k2 : κ) (n1 n2 : ν) :
    (if k1 = k2 then !(lt2 n2 n1) else lt1 k1 k2) = true ∨
      (if k2 = k1 then !(lt2 n1 n2) else lt1 k2 k1) = true := by
  by_cases h : k1 = k2
  · subst h
    simp only [if_true, Bool.not_eq_true']
    cases h2 : lt2 n2 n1
    · exact Or.inl rfl
    · exact Or.inr (asymm2 _ _ h2)
  · have h' : ¬ k2 = k1 := fun e => h e.symm
    simp only [h, h', if_false]
    exact connex _ _ h

/-- A strict first key and a second key, combined as `ORDER BY k, n` does, give
a transitive relation. -/
theorem lex_trans {κ ν : Type} [DecidableEq κ] (lt1 : κ → κ → Bool) (lt2 : ν → ν → Bool)
    (asymm1 : ∀ x y, lt1 x y = true → lt1 y x = false)
    (trans1 : ∀ x y z, lt1 x y = true → lt1 y z = true → lt1 x z = true)
    (trans2 : ∀ x y z, lt2 y x = false → lt2 z y = false → lt2 z x = false)
    (k1 k2 k3 : κ) (n1 n2 n3 : ν)
    (h12 : (if k1 = k2 then !(lt2 n2 n1) else lt1 k1 k2) = true)
    (h23 : (if k2 = k3 then !(lt2 n3 n2) else lt1 k2 k3) = true) :
    (if k1 = k3 then !(lt2 n3 n1) else lt1 k1 k3) = true := by
  by_cases e12 : k1 = k2
  · subst e12
    by_cases e23 : k1 = k3
    · subst e23
      simp only [if_true, Bool.not_eq_true'] at *
      exact trans2 _ _ _ h12 h23
    · simpa only [e23, if_false] using h23
  · by_cases e23 : k2 = k3
    · subst e23
      simpa only [e12, if_false] using h12
    · simp only [e12, e23, if_false] at h12 h23
      have h13 := trans1 _ _ _ h12 h23
      by_cases e13 : k1 = k3
      · subst e13
        have := asymm1 _ _ h12
        simp_all
      · simpa only [e13, if_false] using h13

theorem fieldBefore_total (a b : ResearchField) :
    fieldBefore a b = true ∨ fieldBefore b a = true := by
  unfold fieldBefore
  exact lex_total (ascLt intLt) (ascLt textLt) (ascLt_connex intLt_iff) (ascLt_asymm textLt_iff)
    _ _ _ _

theorem fieldBefore_trans (a b c : ResearchField) (h1 : fieldBefore a b = true)
    (h2 : fieldBefore b c = true) : fieldBefore a c = true := by
  unfold fieldBefore at *
  exact lex_trans (ascLt intLt) (ascLt textLt) (ascLt_asymm intLt_iff) (ascLt_trans intLt_iff)
    (ascLt_false_trans textLt_iff) _ _ _ _ _ _ h1 h2

theorem keywordBefore_total (a b : Keyword) :
    keywordBefore a b = true ∨ keywordBefore b a = true := by
  unfold keywordBefore
  exact lex_total (descLt intLt) (ascLt textLt) (descLt_connex intLt_iff)
    (ascLt_asymm textLt_iff) _ _ _ _

theorem keywordBefore_trans (a b c : Keyword) (h1 : keywordBefore a b = true)
    (h2 : keywordBefore b c = true) : keywordBefore a c = true := by
  unfold keywordBefore at *
  exact lex_trans (descLt intLt) (ascLt textLt) (descLt_asymm intLt_iff)
    (descLt_trans intLt_iff) (ascLt_false_trans textLt_iff) _ _ _ _ _ _ h1 h2

/-! ## The graph handler, step by step -/

/-- What the two loops leave of a row of `fieldsQuery`. -/
theorem keywordsLoop_ok (db : Db) (eng : Engine) :
    ∀ (fs : List FieldObj) (n : Nat) (r : List FieldObj), keywordsLoop db eng n fs = .ok r →
      r = fs.map fun f => { f with keywords := keywordsQuery db f.id } := by
  intro fs
  induction fs with
  | nil => intro n r h; simp [keywordsLoop] at h; simp [h]
  | cons f fs ih =>
    intro n r h
    simp only [keywordsLoop] at h
    split at h
    · exact absurd h (by simp)
    · split at h
      · exact absurd h (by simp)
      · rename_i rest hrest
        have := ih _ _ hrest
        simp only [Except.ok.injEq] at h
        subst h
        simp [this]

/-- The loop throws the message of the first query that rejects. -/
theorem keywordsLoop_error (db : Db) (eng : Engine) :
    ∀ (fs : List FieldObj) (n k : Nat) (msg : String), k < fs.length →
      eng.query (n + k) = some msg → (∀ j, j < k → eng.query (n + j) = none) →
      keywordsLoop db eng n fs = .error msg := by
  intro fs
  induction fs with
  | nil => intro n k msg hk; simp at hk
  | cons f fs ih =>
    intro n k msg hk hq hbefore
    cases k with
    | zero =>
      simp only [Nat.add_zero] at hq
      simp [keywordsLoop, hq]
    | succ k =>
      have h0 : eng.query n = none := by simpa using hbefore 0 (Nat.succ_pos k)
      have hrec := ih (n + 1) k msg (by simpa using hk)
        (by rw [← hq]; congr 1; omega)
        (fun j hj => by rw [← hbefore (j + 1) (by omega)]; congr 1; omega)
      simp [keywordsLoop, h0, hrec]

/-- The loop succeeds when none of its queries rejects. -/
theorem keywordsLoop_of_no_fault (db : Db) (eng : Engine) :
    ∀ (fs : List FieldObj) (n : Nat), (∀ j, j < fs.length → eng.query (n + j) = none) →
      keywordsLoop db eng n fs = .ok (fs.map fun f => { f with keywords := keywordsQuery db f.id })
  := by
  intro fs
  induction fs with
  | nil => intro n _; simp [keywordsLoop]
  | cons f fs ih =>
    intro n h
    have h0 : eng.query n = none := by simpa using h 0 (by simp)
    have hrec := ih (n + 1) (fun j hj => by
      rw [← h (j + 1) (by simpa using hj)]; congr 1; omega)
    simp [keywordsLoop, h0, hrec]

/-- The handler sends exactly one response. -/
theorem graphHandler_sent (db : Db) (eng : Engine) (s : Server) :
    ∃ r, (graphHandler db eng s).sent = s.sent ++ [r] := by
  unfold graphHandler graphTry
  rcases hc : eng.connect with _ | m
  · rcases hq : eng.query 0 with _ | m
    · rcases hl : keywordsLoop db eng 1 (fieldsQuery db) with m | r
      · exact ⟨_, by simp [Server.send, Server.acquire]; rfl⟩
      · exact ⟨_, by simp [Server.send, Server.acquire, Server.release]; rfl⟩
    · exact ⟨_, by simp [Server.send, Server.acquire]; rfl⟩
  · exact ⟨_, by simp [Server.send]; rfl⟩

/-- A 200 response carries the document assembled from the two statements. -/
theorem graph_ok (db : Db) (eng : Engine) (s : Server) (fields : List FieldEntry)
    (h : (graphHandler db eng s).sent = s.sent ++ [⟨200, .graph fields⟩]) :
    fields = (fieldsQuery db).map fun f =>
      { id := f.id, name := f.name, count := (keywordsQuery db f.id).length, color := f.color,
        keywords := (keywordsQuery db f.id).map keywordEntry } := by
  unfold graphHandler graphTry at h
  rcases hc : eng.connect with _ | m
  · rcases hq : eng.query 0 with _ | m
    · rcases hl : keywordsLoop db eng 1 (fieldsQuery db) with m | r
      · simp [hc, hq, hl, Server.send, Server.acquire] at h
      · have hr := keywordsLoop_ok db eng _ _ _ hl
        simp [hc, hq, hl, Server.send, Server.acquire, Server.release] at h
        subst h hr
        simp [resetPapers, fieldEntry, keywordEntry, Function.comp_def]
    · simp [hc, hq, Server.send, Server.acquire] at h
  · simp [hc, Server.send] at h

/-! ## The two statements of the graph handler -/

/-- The rows `fieldsQuery` selects, in the order it returns them. -/
theorem fieldsQuery_sorted (db : Db) :
    ((selectedFields db).insertionSort fun a b => fieldBefore a b = true).Pairwise
      fun a b => fieldBefore a b = true :=
  @List.sorted_insertionSort _ (fun a b => fieldBefore a b = true) _ ⟨fieldBefore_total⟩
    ⟨fieldBefore_trans⟩ _

/-- The rows `keywordsQuery` orders, before the `LIMIT`. -/
theorem keywordsQuery_sorted (db : Db) (i : Int) :
    ((keywordsOf db i).insertionSort fun a b => keywordBefore a b = true).Pairwise
      fun a b => keywordBefore a b = true :=
  @List.sorted_insertionSort _ (fun a b => keywordBefore a b = true) _ ⟨keywordBefore_total⟩
    ⟨keywordBefore_trans⟩ _

theorem keywordsQuery_length (db : Db) (i : Int) :
    (keywordsQuery db i).length = min 10 (keywordsOf db i).length := by
  simp [keywordsQuery, List.length_insertionSort]

theorem mem_keywordsQuery (db : Db) (i : Int) (kw : KeywordObj) (h : kw ∈ keywordsQuery db i) :
    ∃ k ∈ keywordsOf db i, kw = keywordColumns k := by
  simp only [keywordsQuery, List.mem_map] at h
  obtain ⟨k, hk, rfl⟩ := h
  exact ⟨k, ((List.perm_insertionSort _ _).mem_iff).1 (List.mem_of_mem_take hk), rfl⟩

/-- Under `ORDER BY frequency DESC`, a row with a frequency never stands before
a row with a larger one. -/
theorem keywordBefore_frequency (a b : Keyword) (x y : Int) (ha : a.frequency = some x)
    (hb : b.frequency = some y) (h : keywordBefore a b = true) : y ≤ x := by
  unfold keywordBefore at h
  rw [ha, hb] at h
  by_cases e : x = y
  · omega
  · have : ¬ (some x = some y) := by simpa using e
    simp only [this, if_false, descLt, intLt, decide_eq_true_eq] at h
    omega

theorem orDefault_zero (x : Int) : orDefault (some x) 0 = x := by
  simp only [orDefault]
  split_ifs with h
  · exact h.symm
  · rfl

theorem orDefault_half_ne_zero (x : Option ℚ) : orDefault x (1 / 2) ≠ 0 := by
  unfold orDefault
  rcases x with _ | v
  · norm_num
  · by_cases h : v = 0
    · simp [h]
    · simp [h]

/-- C1, as stated, fails: a keyword without a stored frequency is ordered first
by `ORDER BY k.frequency DESC` and reported with frequency 0, so the frequencies
of the response read 0, 5. -/
theorem graph_frequency_not_monotone :
    (graphHandler nullFrequencyDb quietEngine ⟨0, []⟩).sent =
        [⟨200, .graph [⟨1, some "Audio", 2, none,
          [⟨10, some "speech", 0, 0, 1 / 2, none, []⟩,
           ⟨11, some "music", 0, 5, 1 / 2, none, []⟩]⟩]⟩] ∧
      ¬ List.Pairwise (fun x y : Int => x ≥ y)
        ((([⟨10, some "speech", 0, 0, 1 / 2, none, []⟩,
           ⟨11, some "music", 0, 5, 1 / 2, none, []⟩] : List KeywordEntry)).map
          KeywordEntry.frequency) := by
  refine ⟨by decide!, by decide⟩

/-- C1, amended: in a 200 response of `GET /api/graph` every selected field has
an entry, and the `keywords` of an entry are the keyword rows of its field,
sorted by descending frequency (null first) then ascending name, cut to the
first 10: their number is `min 10 n`, and the frequencies read along the list
are non-increasing when no keyword of the field has a null frequency. -/
theorem graph_keywords_top_ten (db : Db) (eng : Engine) (s : Server)
    (fields : List FieldEntry)
    (h : (graphHandler db eng s).sent = s.sent ++ [⟨200, .graph fields⟩]) :
    (∀ f ∈ db.research_field, f.is_selected = some true → ∃ e ∈ fields, e.id = f.id) ∧
      ∀ e ∈ fields,
        (∃ rows : List Keyword,
          rows.Perm (db.keyword.filter fun k => k.field_id = some e.id) ∧
          rows.Pairwise (fun a b => keywordBefore a b = true) ∧
          e.keywords = (rows.take 10).map fun k => keywordEntry (keywordColumns k)) ∧
        e.keywords.length = min 10 (db.keyword.filter fun k => k.field_id = some e.id).length ∧
        ((∀ k ∈ db.keyword, k.field_id = some e.id → k.frequency ≠ none) →
          (e.keywords.map KeywordEntry.frequency).Pairwise fun x y => x ≥ y) := by
  have hf := graph_ok db eng s fields h
  subst hf
  refine ⟨?_, ?_⟩
  · intro f hf hsel
    have hmem : f ∈ (selectedFields db).insertionSort fun a b => fieldBefore a b = true :=
      ((List.perm_insertionSort _ _).mem_iff).2 (by simp [selectedFields, hf, hsel])
    exact ⟨_, List.mem_map.2 ⟨fieldColumns f, List.mem_map.2 ⟨f, hmem, rfl⟩, rfl⟩, rfl⟩
  · intro e he
    obtain ⟨f, -, rfl⟩ := List.mem_map.1 he
    refine ⟨⟨_, List.perm_insertionSort _ _, keywordsQuery_sorted db f.id, ?_⟩, ?_, ?_⟩
    · simp [keywordsQuery, keywordsOf, Function.comp_def]
    · simpa [keywordsOf] using keywordsQuery_length db f.id
    · intro hnn
      simp only [keywordsQuery, List.map_map]
      rw [List.pairwise_map]
      refine ((keywordsQuery_sorted db f.id).sublist (List.take_sublist _ _)).imp_of_mem ?_
      intro a b ha hb hab
      have ha' : a ∈ keywordsOf db f.id :=
        ((List.perm_insertionSort _ _).mem_iff).1 (List.mem_of_mem_take ha)
      have hb' : b ∈ keywordsOf db f.id :=
        ((List.perm_insertionSort _ _).mem_iff).1 (List.mem_of_mem_take hb)
      simp only [keywordsOf, List.mem_filter, decide_eq_true_eq] at ha' hb'
      obtain ⟨x, hx⟩ := Option.ne_none_iff_exists'.1 (hnn a ha'.1 ha'.2)
      obtain ⟨y, hy⟩ := Option.ne_none_iff_exists'.1 (hnn b hb'.1 hb'.2)
      have := keywordBefore_frequency a b x y hx hy hab
      simp only [Function.comp, keywordEntry, keywordColumns, hx, hy, orDefault_zero]
      exact this

theorem graph_keywords_top_ten_witness :
    (graphHandler demoDb quietEngine ⟨0, []⟩).sent =
        ([] : List Response) ++ [⟨200, .graph demoFields⟩] ∧
      ∀ e ∈ demoFields,
        e.keywords.length =
            min 10 (demoDb.keyword.filter fun k => k.field_id = some e.id).length ∧
          (e.keywords.map KeywordEntry.frequency).Pairwise fun x y => x ≥ y :=
  ⟨by decide!, fun e he =>
    have hall : ∀ k ∈ demoDb.keyword, k.frequency ≠ none := by decide
    have hentry :=
      (graph_keywords_top_ten demoDb quietEngine ⟨0, []⟩ demoFields (by decide!)).2 e he
    ⟨hentry.2.1, hentry.2.2 fun k hk _ => hall k hk⟩⟩

/-- C2: in a 200 response of `GET /api/graph` the `fields` list is the rows of
`research_field` with `is_selected = true`, sorted by display order then field
name; every entry comes from a selected row, and where `id` is a key of the
table each selected field appears exactly once and no other field appears. -/
theorem graph_fields_selected_sorted (db : Db) (eng : Engine) (s : Server)
    (fields : List FieldEntry)
    (h : (graphHandler db eng s).sent = s.sent ++ [⟨200, .graph fields⟩]) :
    (∃ rows : List ResearchField,
        rows.Perm (db.research_field.filter fun f => f.is_selected = some true) ∧
        rows.Pairwise (fun a b => fieldBefore a b = true) ∧
        fields.map (fun e => (e.id, e.name, e.color)) =
          rows.map fun f => (f.id, f.field_name, f.color)) ∧
      (∀ e ∈ fields, ∃ f ∈ db.research_field, f.is_selected = some true ∧ f.id = e.id) ∧
      ((db.research_field.map ResearchField.id).Nodup →
        ∀ f ∈ db.research_field,
          (f.is_selected = some true → (fields.map FieldEntry.id).count f.id = 1) ∧
          (f.is_selected ≠ some true → f.id ∉ fields.map FieldEntry.id)) := by
  have hf := graph_ok db eng s fields h
  have hperm : ((selectedFields db).insertionSort fun a b => fieldBefore a b = true).Perm
      (selectedFields db) := List.perm_insertionSort _ _
  have hids : (fields.map FieldEntry.id).Perm ((selectedFields db).map ResearchField.id) := by
    have : fields.map FieldEntry.id =
        ((selectedFields db).insertionSort fun a b => fieldBefore a b = true).map
          ResearchField.id := by
      rw [hf]
      simp [fieldsQuery, fieldColumns, Function.comp_def]
    rw [this]
    exact hperm.map _
  refine ⟨⟨_, hperm, fieldsQuery_sorted db, ?_⟩, ?_, ?_⟩
  · rw [hf]
    simp [fieldsQuery, fieldColumns, Function.comp_def]
  · intro e he
    have hid : e.id ∈ (selectedFields db).map ResearchField.id :=
      hids.mem_iff.1 (List.mem_map_of_mem _ he)
    obtain ⟨f, hfm, hfe⟩ := List.mem_map.1 hid
    simp only [selectedFields, List.mem_filter, decide_eq_true_eq] at hfm
    exact ⟨f, hfm.1, hfm.2, hfe⟩
  · intro hkey f hf
    have hsub : ((selectedFields db).map ResearchField.id).Sublist
        (db.research_field.map ResearchField.id) :=
      (List.filter_sublist _).map _
    refine ⟨fun hsel => ?_, fun hsel hmem => ?_⟩
    · rw [hids.count_eq]
      exact List.count_eq_one_of_mem (hkey.sublist hsub)
        (List.mem_map_of_mem _ (by simp [selectedFields, hf, hsel]))
    · obtain ⟨g, hgm, hge⟩ := List.mem_map.1 (hids.mem_iff.1 hmem)
      simp only [selectedFields, List.mem_filter, decide_eq_true_eq] at hgm
      have : g = f := List.inj_on_of_nodup_map hkey hgm.1 hf hge
      exact hsel (this ▸ hgm.2)

theorem graph_fields_selected_sorted_witness :
    (graphHandler demoDb quietEngine ⟨0, []⟩).sent =
        ([] : List Response) ++ [⟨200, .graph demoFields⟩] ∧
      ∀ f ∈ demoDb.research_field,
        (f.is_selected = some true → (demoFields.map FieldEntry.id).count f.id = 1) ∧
        (f.is_selected ≠ some true → f.id ∉ demoFields.map FieldEntry.id) :=
  ⟨by decide!,
    (graph_fields_selected_sorted demoDb quietEngine ⟨0, []⟩ demoFields (by decide!)).2.2
      (by decide)⟩

/-- C3: in a 200 response of `GET /api/graph` the `count` of a field entry is
the length of its `keywords` list, hence at most 10. -/
theorem graph_field_count (db : Db) (eng : Engine) (s : Server) (fields : List FieldEntry)
    (h : (graphHandler db eng s).sent = s.sent ++ [⟨200, .graph fields⟩]) :
    ∀ e ∈ fields, e.count = e.keywords.length ∧ 0 ≤ e.count ∧ e.count ≤ 10 := by
  have hf := graph_ok db eng s fields h
  subst hf
  intro e he
  obtain ⟨f, -, rfl⟩ := List.mem_map.1 he
  refine ⟨by simp, Nat.zero_le _, ?_⟩
  simp only [keywordsQuery_length]
  exact Nat.min_le_left _ _

theorem graph_field_count_witness :
    (graphHandler demoDb quietEngine ⟨0, []⟩).sent =
        ([] : List Response) ++ [⟨200, .graph demoFields⟩] ∧
      ∀ e ∈ demoFields, e.count = e.keywords.length ∧ 0 ≤ e.count ∧ e.count ≤ 10 :=
  ⟨by decide!, graph_field_count demoDb quietEngine ⟨0, []⟩ demoFields (by decide!)⟩

/-- C4: in a 200 response of `GET /api/graph` every keyword entry has an empty
`papers` list and `count` 0, whatever the tables hold. -/
theorem graph_keyword_papers_empty (db : Db) (eng : Engine) (s : Server)
    (fields : List FieldEntry)
    (h : (graphHandler db eng s).sent = s.sent ++ [⟨200, .graph fields⟩]) :
    ∀ e ∈ fields, ∀ k ∈ e.keywords, k.papers = [] ∧ k.count = 0 := by
  have hf := graph_ok db eng s fields h
  subst hf
  intro e he k hk
  obtain ⟨f, -, rfl⟩ := List.mem_map.1 he
  obtain ⟨kw, -, rfl⟩ := List.mem_map.1 hk
  exact ⟨rfl, rfl⟩

theorem graph_keyword_papers_empty_witness :
    (graphHandler demoDb quietEngine ⟨0, []⟩).sent =
        ([] : List Response) ++ [⟨200, .graph demoFields⟩] ∧
      ∀ e ∈ demoFields, ∀ k ∈ e.keywords, k.papers = [] ∧ k.count = 0 :=
  ⟨by decide!, graph_keyword_papers_empty demoDb quietEngine ⟨0, []⟩ demoFields (by decide!)⟩

/-- C10: in a 200 response of `GET /api/graph` every keyword entry copies `id`,
`name` and `color` from a keyword row of its field; its `frequency` is the
stored one when that is neither null nor 0, else 0; its `weight` is the stored
one when that is neither null nor 0, else 1/2; so the weight is never 0. -/
theorem graph_keyword_defaults (db : Db) (eng : Engine) (s : Server)
    (fields : List FieldEntry)
    (h : (graphHandler db eng s).sent = s.sent ++ [⟨200, .graph fields⟩]) :
    ∀ e ∈ fields, ∀ k ∈ e.keywords,
      k.weight ≠ 0 ∧
      ∃ row ∈ db.keyword, row.field_id = some e.id ∧
        k.id = row.id ∧ k.name = row.keyword_name ∧ k.color = row.color ∧
        (∀ n, row.frequency = some n → n ≠ 0 → k.frequency = n) ∧
        (row.frequency = none ∨ row.frequency = some 0 → k.frequency = 0) ∧
        (∀ w, row.weight = some w → w ≠ 0 → k.weight = w) ∧
        (row.weight = none ∨ row.weight = some 0 → k.weight = 1 / 2) := by
  have hf := graph_ok db eng s fields h
  subst hf
  intro e he k hk
  obtain ⟨f, -, rfl⟩ := List.mem_map.1 he
  obtain ⟨kw, hkw, rfl⟩ := List.mem_map.1 hk
  obtain ⟨row, hrow, rfl⟩ := mem_keywordsQuery db f.id kw hkw
  simp only [keywordsOf, List.mem_filter, decide_eq_true_eq] at hrow
  refine ⟨orDefault_half_ne_zero _, row, hrow.1, hrow.2, rfl, rfl, rfl, ?_, ?_, ?_, ?_⟩
  · intro n hn hn0
    simp [keywordEntry, keywordColumns, orDefault, hn, hn0]
  · rintro (hn | hn) <;> simp [keywordEntry, keywordColumns, orDefault, hn]
  · intro w hw hw0
    simp [keywordEntry, keywordColumns, orDefault, hw, hw0]
  · rintro (hw | hw) <;> simp [keywordEntry, keywordColumns, orDefault, hw]

theorem graph_keyword_defaults_witness :
    (graphHandler demoDb quietEngine ⟨0, []⟩).sent =
        ([] : List Response) ++ [⟨200, .graph demoFields⟩] ∧
      ∀ e ∈ demoFields, ∀ k ∈ e.keywords, k.weight ≠ 0 :=
  ⟨by decide!, fun e he k hk =>
    (graph_keyword_defaults demoDb quietEngine ⟨0, []⟩ demoFields (by decide!) e he k hk).1⟩

/-! ## The statements of the node handler -/

theorem leftJoin_nil {α β : Type} (ys : List β) (cond : α → β → Bool) :
    leftJoin ([] : List α) ys cond = [] := rfl

theorem leftJoin_cons {α β : Type} (x : α) (xs : List α) (ys : List β) (cond : α → β → Bool) :
    leftJoin (x :: xs) ys cond = leftJoin [x] ys cond ++ leftJoin xs ys cond := by
  simp [leftJoin]

/-- Every row a join gives for `x` carries `x`. -/
theorem leftJoin_single_fst {α β : Type} (x : α) (ys : List β) (cond : α → β → Bool) :
    ∀ r ∈ leftJoin [x] ys cond, r.1 = x := by
  intro r hr
  simp only [leftJoin, List.flatMap_cons, List.flatMap_nil, List.append_nil] at hr
  split_ifs at hr
  · simp only [List.mem_singleton] at hr
    rw [hr]
  · obtain ⟨y, -, rfl⟩ := List.mem_map.1 hr
    rfl

/-- A left join gives at least one row for `x`. -/
theorem leftJoin_single_ne_nil {α β : Type} (x : α) (ys : List β) (cond : α → β → Bool) :
    leftJoin [x] ys cond ≠ [] := by
  simp only [leftJoin, List.flatMap_cons, List.flatMap_nil, List.append_nil]
  split_ifs with h
  · simp
  · intro hm
    rw [List.map_eq_nil_iff] at hm
    simp [hm] at h

/-- The rows of a left join for `x` whose right part has the counted column are
as many as the partners of `x` that have it. -/
theorem leftJoin_single_countP {α β : Type} (x : α) (ys : List β) (cond : α → β → Bool)
    (p : Option β → Bool) (hnone : p none = false) :
    (leftJoin [x] ys cond).countP (fun r => p r.2) =
      (ys.filter (cond x)).countP fun y => p (some y) := by
  simp only [leftJoin, List.flatMap_cons, List.flatMap_nil, List.append_nil]
  split_ifs with h
  · simp only [List.isEmpty_iff] at h
    simp [h, hnone]
  · rw [List.countP_map]
    rfl

/-- `WHERE` on the left table of a left join selects the joins of the rows it
selects. -/
theorem leftJoin_filter {α β : Type} (xs : List α) (ys : List β) (cond : α → β → Bool)
    (p : α → Bool) :
    (leftJoin xs ys cond).filter (fun r => p r.1) = leftJoin (xs.filter p) ys cond := by
  induction xs with
  | nil => rfl
  | cons x xs ih =>
    rw [leftJoin_cons x xs, List.filter_append, ih]
    by_cases hp : p x = true
    · have h2 : (leftJoin [x] ys cond).filter (fun r => p r.1) = leftJoin [x] ys cond := by
        rw [List.filter_eq_self]
        intro r hr
        rw [leftJoin_single_fst x ys cond r hr]
        exact hp
      rw [List.filter_cons_of_pos hp, leftJoin_cons x (xs.filter p), h2]
    · have h2 : (leftJoin [x] ys cond).filter (fun r => p r.1) = [] := by
        rw [List.filter_eq_nil_iff]
        intro r hr
        rw [leftJoin_single_fst x ys cond r hr]
        exact hp
      rw [List.filter_cons_of_neg hp, h2, List.nil_append]

theorem leftJoin_eq_nil {α β : Type} (xs : List α) (ys : List β) (cond : α → β → Bool) :
    leftJoin xs ys cond = [] ↔ xs = [] := by
  constructor
  · intro h
    cases xs with
    | nil => rfl
    | cons x xs =>
      rw [leftJoin_cons, List.append_eq_nil] at h
      exact absurd h.1 (leftJoin_single_ne_nil x ys cond)
  · rintro rfl
    rfl

theorem groupCount_eq_nil {α β γ : Type} (key : α → Int) (counted : Option β → Option γ)
    (rows : List (α × Option β)) : groupCount key counted rows = [] ↔ rows = [] := by
  constructor
  · intro h
    cases rows with
    | nil => rfl
    | cons r rs =>
      exfalso
      have hmem : key r.1 ∈ ((r :: rs).map fun r => key r.1).dedup :=
        List.mem_dedup.2 (List.mem_map_of_mem _ (List.mem_cons_self _ _))
      have hfind : ((r :: rs).find? fun q => key q.1 = key r.1) = some r := by simp
      have : (r.1, (r :: rs).countP fun q => key q.1 = key r.1 &&
          (counted q.2).isSome) ∈ groupCount key counted (r :: rs) := by
        unfold groupCount
        rw [List.mem_filterMap]
        exact ⟨key r.1, hmem, by rw [hfind]; rfl⟩
      rw [h] at this
      simp at this
  · rintro rfl
    rfl

/-- A `GROUP BY` over rows that all carry the same row `x` gives one row. -/
theorem groupCount_single {α β γ : Type} (key : α → Int) (counted : Option β → Option γ)
    (rows : List (α × Option β)) (x : α) (hne : rows ≠ []) (hall : ∀ r ∈ rows, r.1 = x) :
    groupCount key counted rows = [(x, rows.countP fun r => (counted r.2).isSome)] := by
  have hkeys : (rows.map fun r => key r.1) = List.replicate rows.length (key x) := by
    rw [List.eq_replicate_iff]
    refine ⟨by simp, ?_⟩
    intro b hb
    obtain ⟨r, hr, rfl⟩ := List.mem_map.1 hb
    rw [hall r hr]
  have hlen : rows.length ≠ 0 := by
    intro h0
    exact hne (List.length_eq_zero.1 h0)
  have hcount : (rows.countP fun r => decide (key r.1 = key x) && (counted r.2).isSome) =
      rows.countP fun r => (counted r.2).isSome := by
    apply List.countP_congr
    intro r hr
    simp [hall r hr]
  obtain ⟨r, rs, rfl⟩ := List.exists_cons_of_ne_nil hne
  have hr : r.1 = x := hall r (List.mem_cons_self _ _)
  have hfind : ((r :: rs).find? fun q => key q.1 = key x) = some r := by simp [hr]
  unfold groupCount
  rw [hkeys, List.replicate_dedup hlen]
  simp only [List.filterMap_cons, List.filterMap_nil, hfind, Option.map_some', hcount, hr]

/-- A key identifies its row. -/
theorem filter_key_eq {α : Type} (key : α → Int) (xs : List α) (x : α) (hx : x ∈ xs)
    (hkey : (xs.map key).Nodup) : xs.filter (fun y => key y = key x) = [x] := by
  induction xs with
  | nil => simp at hx
  | cons y ys ih =>
    simp only [List.map_cons, List.nodup_cons] at hkey
    rcases List.mem_cons.1 hx with rfl | hx'
    · have : ys.filter (fun y => decide (key y = key x)) = [] := by
        rw [List.filter_eq_nil_iff]
        intro z hz hzk
        exact hkey.1 (by
          rw [← of_decide_eq_true hzk]
          exact List.mem_map_of_mem _ hz)
      simp [this]
    · have hne : ¬ key y = key x := by
        intro e
        exact hkey.1 (by rw [e]; exact List.mem_map_of_mem _ hx')
      simp [hne, ih hx' hkey.2]

/-! ## The node handler, step by step -/

theorem nodeHandler_empty (db : Db) (eng : Engine) (id : Int) (type : Option String)
    (s : Server) (hc : eng.connect = none) (hq : eng.query 0 = none)
    (hrows : nodeQuery db eng id type = .ok []) :
    (nodeHandler db eng id type s).sent = s.sent ++ [⟨404, .error "节点未找到" none⟩] := by
  simp [nodeHandler, nodeTry, hc, hq, hrows, Server.send, Server.acquire, Server.release]

theorem nodeHandler_cons (db : Db) (eng : Engine) (id : Int) (type : Option String)
    (s : Server) (hc : eng.connect = none) (hq : eng.query 0 = none) (row : NodeRow)
    (rest : List NodeRow) (hrows : nodeQuery db eng id type = .ok (row :: rest)) :
    (nodeHandler db eng id type s).sent = s.sent ++ [⟨200, .node row⟩] := by
  simp [nodeHandler, nodeTry, hc, hq, hrows, Server.send, Server.acquire, Server.release]

/-- A statement that is rejected ends the request with a 500 and the
connection still checked out. -/
theorem nodeHandler_rejected (db : Db) (eng : Engine) (id : Int) (type : Option String)
    (s : Server) (hc : eng.connect = none) (hq : eng.query 0 = none) (msg : String)
    (hrows : nodeQuery db eng id type = .error msg) :
    nodeHandler db eng id type s =
      ⟨s.checkedOut + 1, s.sent ++ [⟨500, .error "节点查询失败" (some msg)⟩]⟩ := by
  simp [nodeHandler, nodeTry, hc, hq, hrows, Server.send, Server.acquire]

theorem fieldNodeQuery_eq_nil (db : Db) (id : Int) :
    fieldNodeQuery db id = [] ↔ ∀ f ∈ db.research_field, f.id ≠ id := by
  unfold fieldNodeQuery
  rw [List.map_eq_nil_iff, groupCount_eq_nil,
    leftJoin_filter db.research_field db.keyword _ (fun f => decide (f.id = id)),
    leftJoin_eq_nil, List.filter_eq_nil_iff]
  simp

theorem keywordNodeQuery_eq_nil (db : Db) (id : Int) :
    keywordNodeQuery db id = [] ↔ ∀ k ∈ db.keyword, k.id ≠ id := by
  unfold keywordNodeQuery
  rw [List.map_eq_nil_iff, groupCount_eq_nil,
    leftJoin_filter db.keyword db.paper_keyword _ (fun k => decide (k.id = id)),
    leftJoin_eq_nil, List.filter_eq_nil_iff]
  simp

theorem paperNodeQuery_eq_nil (db : Db) (id : Int) :
    paperNodeQuery db id = [] ↔ ∀ p ∈ db.paper, p.id ≠ id := by
  unfold paperNodeQuery
  rw [List.map_eq_nil_iff,
    leftJoin_filter db.paper db.venue _ (fun p => decide (p.id = id)),
    leftJoin_eq_nil, List.filter_eq_nil_iff]
  simp

/-- The row `case 'field'` gives for a row `f` of `research_field`, where `id`
is a key of the table. -/
theorem fieldNodeQuery_of_mem (db : Db) (f : ResearchField) (hf : f ∈ db.research_field)
    (hkey : (db.research_field.map ResearchField.id).Nodup) :
    fieldNodeQuery db f.id =
      [NodeRow.field f (db.keyword.filter fun k => k.field_id = some f.id).length] := by
  unfold fieldNodeQuery
  rw [leftJoin_filter db.research_field db.keyword _ (fun g => decide (g.id = f.id)),
    filter_key_eq ResearchField.id db.research_field f hf hkey,
    groupCount_single ResearchField.id _ _ f (leftJoin_single_ne_nil _ _ _)
      (leftJoin_single_fst _ _ _),
    leftJoin_single_countP f db.keyword _
      (fun k : Option Keyword => (k.map Keyword.id).isSome) rfl]
  simp [List.countP_eq_length_filter]

/-- The sixth column of `research_field` is a boolean and that of `keyword` an
integer: the first `UNION` of the `default` statement is rejected, whatever the
rows and the id. -/
theorem anyNodeQuery_rejected (db : Db) (eng : Engine) (id : Int) :
    anyNodeQuery db eng id = .error "UNION types boolean and integer cannot be matched" := by
  simp [anyNodeQuery, sqlUnion, ResearchField.columnTypes, Keyword.columnTypes, unionTypes,
    unionType, ColType.name]

/-- With a type other than field, keyword and paper the handler answers 500,
whatever the id. -/
theorem nodeHandler_default (db : Db) (eng : Engine) (id : Int) (type : Option String)
    (s : Server) (hc : eng.connect = none) (hq : eng.query 0 = none)
    (h1 : type ≠ some "field") (h2 : type ≠ some "keyword") (h3 : type ≠ some "paper") :
    nodeHandler db eng id type s =
      ⟨s.checkedOut + 1, s.sent ++ [⟨500, .error "节点查询失败"
        (some "UNION types boolean and integer cannot be matched")⟩]⟩ :=
  nodeHandler_rejected db eng id type s hc hq _
    (by simp only [nodeQuery, h1, h2, h3, if_false]; exact anyNodeQuery_rejected db eng id)

/-- With type field, keyword or paper, and the statement answered, the response
is 404 with an `error` label exactly when no row of the table of that type has
the id, and 200 with the first row of the result otherwise. -/
theorem nodeHandler_named_type (db : Db) (eng : Engine) (id : Int) (s : Server)
    (hc : eng.connect = none) (hq : eng.query 0 = none) :
    (((nodeHandler db eng id (some "field") s).sent =
          s.sent ++ [⟨404, .error "节点未找到" none⟩] ↔
        ∀ f ∈ db.research_field, f.id ≠ id) ∧
      ((nodeHandler db eng id (some "keyword") s).sent =
          s.sent ++ [⟨404, .error "节点未找到" none⟩] ↔
        ∀ k ∈ db.keyword, k.id ≠ id) ∧
      ((nodeHandler db eng id (some "paper") s).sent =
          s.sent ++ [⟨404, .error "节点未找到" none⟩] ↔
        ∀ p ∈ db.paper, p.id ≠ id)) ∧
    ∀ type rows, nodeQuery db eng id type = .ok rows →
      (rows = [] →
        (nodeHandler db eng id type s).sent = s.sent ++ [⟨404, .error "节点未找到" none⟩]) ∧
      ∀ row rest, rows = row :: rest →
        (nodeHandler db eng id type s).sent = s.sent ++ [⟨200, .node row⟩] := by
  have key : ∀ (type : Option String) (rows : List NodeRow),
      nodeQuery db eng id type = .ok rows →
      ((nodeHandler db eng id type s).sent = s.sent ++ [⟨404, .error "节点未找到" none⟩] ↔
        rows = []) := by
    intro type rows hrows
    constructor
    · intro h
      rcases rows with _ | ⟨row, rest⟩
      · rfl
      · rw [nodeHandler_cons db eng id type s hc hq row rest hrows] at h
        simp at h
    · rintro rfl
      exact nodeHandler_empty db eng id type s hc hq hrows
  refine ⟨⟨?_, ?_, ?_⟩, fun type rows hrows => ⟨fun h => (key type rows hrows).2 h, ?_⟩⟩
  · rw [key (some "field") (fieldNodeQuery db id) (by simp [nodeQuery]),
      fieldNodeQuery_eq_nil]
  · rw [key (some "keyword") (keywordNodeQuery db id) (by simp [nodeQuery]),
      keywordNodeQuery_eq_nil]
  · rw [key (some "paper") (paperNodeQuery db id) (by simp [nodeQuery]),
      paperNodeQuery_eq_nil]
  · rintro row rest rfl
    exact nodeHandler_cons db eng id type s hc hq row rest hrows

/-- C5 fails on the code for the absent type.  No row of `demoDb` has id 7:
with type field, keyword or paper the answer is 404 with the `error` label, but
with the type absent the `default` statement is rejected (its `UNION` matches a
boolean column with an integer one) and the answer is 500 where the claim says
404. -/
theorem node_absent_type_answers_500 :
    (nodeHandler demoDb quietEngine 7 (some "field") ⟨0, []⟩).sent =
        [⟨404, .error "节点未找到" none⟩] ∧
      (nodeHandler demoDb quietEngine 7 (some "keyword") ⟨0, []⟩).sent =
        [⟨404, .error "节点未找到" none⟩] ∧
      (nodeHandler demoDb quietEngine 7 (some "paper") ⟨0, []⟩).sent =
        [⟨404, .error "节点未找到" none⟩] ∧
      (nodeHandler demoDb quietEngine 7 none ⟨0, []⟩).sent =
        [⟨500, .error "节点查询失败"
          (some "UNION types boolean and integer cannot be matched")⟩] := by
  decide

/-- C8: `GET /api/node/:id` with `type=field` and the id of a row of
`research_field` (`id` being a key of the table), when the statement is
answered: the response is 200 with that row and a `keyword_count` equal to the
number of rows of `keyword` whose `field_id` is the id, 0 when there is none. -/
theorem node_field_keyword_count (db : Db) (eng : Engine) (s : Server) (f : ResearchField)
    (hf : f ∈ db.research_field) (hkey : (db.research_field.map ResearchField.id).Nodup)
    (hc : eng.connect = none) (hq : eng.query 0 = none) :
    (nodeHandler db eng f.id (some "field") s).sent =
        s.sent ++ [⟨200, .node (.field f
          (db.keyword.filter fun k => k.field_id = some f.id).length)⟩] ∧
      ((∀ k ∈ db.keyword, k.field_id ≠ some f.id) →
        (nodeHandler db eng f.id (some "field") s).sent =
          s.sent ++ [⟨200, .node (.field f 0)⟩]) := by
  have hrows : nodeQuery db eng f.id (some "field") =
      .ok [NodeRow.field f (db.keyword.filter fun k => k.field_id = some f.id).length] := by
    simp only [nodeQuery, if_true]
    rw [fieldNodeQuery_of_mem db f hf hkey]
  have hsent := nodeHandler_cons db eng f.id (some "field") s hc hq _ _ hrows
  refine ⟨hsent, fun hnone => ?_⟩
  have h0 : (db.keyword.filter fun k => k.field_id = some f.id) = [] := by
    rw [List.filter_eq_nil_iff]
    intro k hk
    simpa using hnone k hk
  rw [hsent, h0]
  rfl

theorem node_field_keyword_count_witness :
    (nodeHandler demoDb quietEngine 1 (some "field") ⟨0, []⟩).sent =
      ([] : List Response) ++
        [⟨200, .node (.field ⟨1, some "Audio", some 1, none, some "#f00", some true⟩ 3)⟩] :=
  (node_field_keyword_count demoDb quietEngine ⟨0, []⟩
    ⟨1, some "Audio", some 1, none, some "#f00", some true⟩ (by decide) (by decide) rfl rfl).1

/-- C9 fails on the code.  Id 2 of `demoDb` is in `research_field`, in `keyword`
and in `paper`; with the type absent the `default` statement is rejected (its
`UNION` matches the boolean `is_selected` with the integer `field_id`), so the
answer is 500 with the `error` label and no row, where the claim says 200 with
the first row of the union. -/
theorem node_default_union_rejected :
    (∃ f ∈ demoDb.research_field, f.id = 2) ∧ (∃ k ∈ demoDb.keyword, k.id = 2) ∧
      (∃ p ∈ demoDb.paper, p.id = 2) ∧
      nodeHandler demoDb quietEngine 2 none ⟨0, []⟩ =
        ⟨1, [⟨500, .error "节点查询失败"
          (some "UNION types boolean and integer cannot be matched")⟩]⟩ := by
  decide

/-- C6: both handlers send exactly one response per request; when
`pool.connect()` rejects, or a query rejects after the ones before it were
answered (query `k` of the graph handler is `fieldsQuery` for `k = 0` and the
`keywordsQuery` of the `k`-th field otherwise), that response is 500 with
exactly an `error` label and `details` equal to the message of the failure. -/
theorem failure_gives_500 (db : Db) (eng : Engine) (id : Int) (type : Option String)
    (s : Server) (msg : String) :
    ((∃ r, (graphHandler db eng s).sent = s.sent ++ [r]) ∧
      (eng.connect = some msg →
        (graphHandler db eng s).sent =
          s.sent ++ [⟨500, .error "数据库查询失败" (some msg)⟩]) ∧
      (eng.connect = none → ∀ k, k ≤ (fieldsQuery db).length → eng.query k = some msg →
        (∀ j, j < k → eng.query j = none) →
        (graphHandler db eng s).sent =
          s.sent ++ [⟨500, .error "数据库查询失败" (some msg)⟩])) ∧
    ((∃ r, (nodeHandler db eng id type s).sent = s.sent ++ [r]) ∧
      (eng.connect = some msg →
        (nodeHandler db eng id type s).sent =
          s.sent ++ [⟨500, .error "节点查询失败" (some msg)⟩]) ∧
      (eng.connect = none → eng.query 0 = some msg →
        (nodeHandler db eng id type s).sent =
          s.sent ++ [⟨500, .error "节点查询失败" (some msg)⟩])) := by
  refine ⟨⟨graphHandler_sent db eng s, fun hc => ?_, fun hc k hk hq hbefore => ?_⟩,
    ⟨?_, fun hc => ?_, fun hc hq => ?_⟩⟩
  · simp [graphHandler, graphTry, hc, Server.send]
  · cases k with
    | zero => simp [graphHandler, graphTry, hc, hq, Server.send, Server.acquire]
    | succ k =>
      have h0 : eng.query 0 = none := hbefore 0 (Nat.succ_pos k)
      have hloop : keywordsLoop db eng 1 (fieldsQuery db) = .error msg :=
        keywordsLoop_error db eng (fieldsQuery db) 1 k msg (by omega)
          (by rw [← hq]; congr 1; omega)
          (fun j hj => by rw [← hbefore (1 + j) (by omega)])
      simp [graphHandler, graphTry, hc, h0, hloop, Server.send, Server.acquire]
  · unfold nodeHandler nodeTry
    rcases hc : eng.connect with _ | m
    · rcases hq : eng.query 0 with _ | m
      · rcases hrows : nodeQuery db eng id type with m | rows
        · exact ⟨_, by simp [Server.send, Server.acquire]; rfl⟩
        · rcases rows with _ | ⟨row, rest⟩
          · exact ⟨_, by simp [Server.send, Server.acquire, Server.release]; rfl⟩
          · exact ⟨_, by simp [Server.send, Server.acquire, Server.release]; rfl⟩
      · exact ⟨_, by simp [Server.send, Server.acquire]; rfl⟩
    · exact ⟨_, by simp [Server.send]; rfl⟩
  · simp [nodeHandler, nodeTry, hc, Server.send]
  · simp [nodeHandler, nodeTry, hc, hq, Server.send, Server.acquire]

theorem failure_gives_500_witness :
    (graphHandler demoDb (rejectingEngine 2) ⟨0, []⟩).sent =
        ([] : List Response) ++
          [⟨500, .error "数据库查询失败" (some "connection terminated")⟩] ∧
      (nodeHandler demoDb unreachableEngine 1 (some "field") ⟨0, []⟩).sent =
        ([] : List Response) ++
          [⟨500, .error "节点查询失败" (some "connect ECONNREFUSED")⟩] :=
  ⟨(failure_gives_500 demoDb (rejectingEngine 2) 1 (some "field") ⟨0, []⟩
      "connection terminated").1.2.2 rfl 2 (by decide) rfl (by decide),
    (failure_gives_500 demoDb unreachableEngine 1 (some "field") ⟨0, []⟩
      "connect ECONNREFUSED").2.2.1 rfl⟩

/-- C7 fails on the code: `client.release()` stands only at the end of the
`try` block, so a query that rejects leaves the connection checked out.  With
no connection out before, one is out after the graph handler (its first
`keywordsQuery` rejecting) and after the node handler (its query rejecting). -/
theorem query_failure_leaks_connection :
    (graphHandler demoDb (rejectingEngine 1) ⟨0, []⟩).checkedOut = 1 ∧
      (nodeHandler demoDb (rejectingEngine 0) 1 (some "field") ⟨0, []⟩).checkedOut = 1 ∧
      (graphHandler demoDb quietEngine ⟨0, []⟩).checkedOut = 0 ∧
      (nodeHandler demoDb quietEngine 1 (some "field") ⟨0, []⟩).checkedOut = 0 := by
  decide

end KbCreate
